import Mathlib

/-!
Shallow embedding of the `qto-categorizer-ml` repository, covering the parts
of the code base exercised by the specification claims: the pydantic model
base (`core/models.py`), the baseline and sklearn-pipeline models, the
train/test splitter (`utils/splitters.py`), the Pandera signer
(`utils/signers.py`), the job context manager (`jobs/base.py`) and the
training job (`jobs/training.py`).

Machine floats of the source (the `AMOUNT` column, metric scores) are
embedded as rationals; the claims checked here never depend on rounding.
External-library internals (numpy's seeded shuffling, the random-forest
pipeline) are abstracted as noted in the doc comments of the corresponding
definitions.
-/

namespace QTO

/-- Python exception values observed by the embedded code.  Each constructor
carries the message (or key) used at the raise site. -/
inductive PyErr where
  /-- `ValueError` -/
  | valueError (msg : String)
  /-- `KeyError`, raised by a failing `dict[...]` lookup -/
  | keyError (key : String)
  /-- `AttributeError`, raised by attribute access on `None` -/
  | attributeError (msg : String)
  /-- `sklearn.exceptions.NotFittedError` (never raised by this code base;
  present so that the spec's claim about it can be stated) -/
  | notFittedError
  /-- `pydantic.ValidationError` -/
  | validationError (msg : String)
  /-- `pandera.errors.SchemaError` -/
  | schemaError (msg : String)
deriving DecidableEq, Repr

/-- `Except.isOk` as a Bool, for stating that an embedded computation
succeeded. -/
def isOkE {ε α : Type} : Except ε α → Bool
  | .ok _ => true
  | .error _ => false

instance {ε α : Type} [DecidableEq ε] [DecidableEq α] : DecidableEq (Except ε α) :=
  fun x y =>
    match x, y with
    | .ok a, .ok b =>
      if h : a = b then .isTrue (by rw [h]) else .isFalse fun hc => h (Except.ok.inj hc)
    | .error a, .error b =>
      if h : a = b then .isTrue (by rw [h]) else .isFalse fun hc => h (Except.error.inj hc)
    | .ok _, .error _ => .isFalse Except.noConfusion
    | .error _, .ok _ => .isFalse Except.noConfusion

/-- Worker for `dropDuplicates`: keep rows not seen before. -/
def ddGo {α : Type} [DecidableEq α] (seen : List α) : List α → List α
  | [] => []
  | a :: l => if a ∈ seen then ddGo seen l else a :: ddGo (a :: seen) l

/-- `pandas.DataFrame.drop_duplicates()`: keep the first occurrence of each
row, drop later duplicates. -/
def dropDuplicates {α : Type} [DecidableEq α] (l : List α) : List α := ddGo [] l

/-- Row of the raw inputs dataset (`core/schemas.py`, `InputsSchema`):
`TRANSACTION_ID, DATE_EMITTED, AMOUNT, TYPE_OF_PAYMENT, MERCHANT_NAME,
DESCRIPTION, SIDE, CATEGORY`.  The timestamp is embedded as an integer,
the float amount as a rational; nullable string columns are `Option`. -/
structure RawRow where
  transaction_id : String
  date_emitted : Int
  amount : Rat
  type_of_payment : Option String
  merchant_name : Option String
  description : Option String
  side : Int
  category : String
deriving DecidableEq, Repr

/-- Row of `inputs_[features + [target]]` in `TrainingJob.run`: the four
feature columns plus the `CATEGORY` target. -/
structure SelRow where
  amount : Rat
  type_of_payment : Option String
  merchant_name : Option String
  description : Option String
  category : String
deriving DecidableEq, Repr

/-- Row of the feature frame after `inputs.pop(target)`
(`core/schemas.py`, `FeatInputsSchema` columns). -/
structure FeatRow where
  amount : Rat
  type_of_payment : Option String
  merchant_name : Option String
  description : Option String
deriving DecidableEq, Repr

/-- Column selection `inputs_[features + [target]]` of `TrainingJob.run`. -/
def selectRow (r : RawRow) : SelRow :=
  ⟨r.amount, r.type_of_payment, r.merchant_name, r.description, r.category⟩

/-- `inputs.pop(target)`: the feature part of a selected row. -/
def SelRow.toFeat (r : SelRow) : FeatRow :=
  ⟨r.amount, r.type_of_payment, r.merchant_name, r.description⟩

/-- `FeatInputsSchema.check` (`core/schemas.py`): every declared column must
exist with its declared type (structural here) and `AMOUNT` must satisfy
`Field(gt=0)`; on violation pandera raises a `SchemaError`. -/
def FeatInputsSchema.check (rows : List FeatRow) : Except PyErr (List FeatRow) :=
  if rows.all (fun r => 0 < r.amount) then .ok rows
  else .error (.schemaError "Column AMOUNT failed validator greater_than(0)")

/-- `.iloc[index]` row selection by integer positions. -/
def iloc {α : Type} (rows : List α) (index : List Nat) : List α :=
  index.filterMap fun i => rows.get? i

/-! ### sklearn `LabelEncoder`

`fit` stores `classes_ = np.unique(y)`, the sorted distinct labels.
`transform` maps each label to its index in `classes_` and raises
`ValueError` on a label that was not seen at fit time; `inverse_transform`
maps indices back and raises `ValueError` on an out-of-range code. -/

/-- Strict code-point-wise lexicographic comparison of character lists
(the sort order numpy and pandas use on these label strings). -/
def strLtB : List Char → List Char → Bool
  | [], [] => false
  | [], _ :: _ => true
  | _ :: _, [] => false
  | a :: as, b :: bs =>
    if a.toNat < b.toNat then true
    else if b.toNat < a.toNat then false
    else strLtB as bs

/-- Strict lexicographic order on strings. -/
def strLt (x y : String) : Bool := strLtB x.data y.data

/-- Non-strict lexicographic order on strings. -/
def strLe (x y : String) : Bool := strLt x y || x == y

/-- Insert a string into a sorted list, keeping it sorted. -/
def insertSorted (x : String) : List String → List String
  | [] => [x]
  | y :: ys => if strLe x y then x :: y :: ys else y :: insertSorted x ys

/-- Sort a list of strings (insertion sort). -/
def sortStrings (l : List String) : List String := l.foldr insertSorted []

/-- `np.unique`: sorted distinct values. -/
def npUnique (l : List String) : List String := dropDuplicates (sortStrings l)

/-- Index of a label among the fitted classes (`np.searchsorted` on the
sorted class array; total here, guarded by membership at call sites). -/
def classIndex (classes : List String) (y : String) : Nat := classes.indexOf y

/-- `LabelEncoder.transform`: encode labels, `ValueError` on unseen ones. -/
def leTransform (classes : List String) (ys : List String) : Except PyErr (List Nat) :=
  if ys.all (· ∈ classes) then .ok (ys.map (classIndex classes))
  else .error (.valueError "y contains previously unseen labels")

/-- `LabelEncoder.inverse_transform`: decode codes, `ValueError` on codes
outside the fitted class range. -/
def leInverseTransform (classes : List String) (codes : List Nat) :
    Except PyErr (List String) :=
  if codes.all (· < classes.length) then .ok (codes.map fun c => classes.getD c "")
  else .error (.valueError "y contains previously unseen labels")

/-! ### `MostFrequentCategoryByMerchant` (`core/models.py`)

`fit(X, y)` appends `y` as a `CATEGORY` column, counts the occurrences of
each `(MERCHANT_NAME, CATEGORY)` pair (`groupby(...).size()`, which drops
rows whose merchant is missing and emits the groups sorted by key), sorts
the counts descending and keeps the first row per merchant
(`drop_duplicates("MERCHANT_NAME")`), and stores the resulting
merchant-to-category dict.  The pandas `sort_values` kind is unspecified on
ties; the embedding uses a stable descending sort (the claims checked here
never depend on tie order).  `transform(X)` maps each row's merchant
through the dict and replaces missing results with the literal fallback
`25.0`, cast to int (`np.nan_to_num(outputs, nan=25.0).astype(int)`). -/

/-- Insert into a list of `((merchant, category), count)` rows sorted by
strictly descending count, placing the new row before rows of equal count
(stable descending sort). -/
def insertByCountDesc (x : (String × Nat) × Nat) :
    List ((String × Nat) × Nat) → List ((String × Nat) × Nat)
  | [] => [x]
  | y :: ys => if x.2 ≥ y.2 then x :: y :: ys else y :: insertByCountDesc x ys

/-- `sort_values("count", ascending=False)` as a stable insertion sort. -/
def sortByCountDesc (l : List ((String × Nat) × Nat)) : List ((String × Nat) × Nat) :=
  l.foldr insertByCountDesc []

/-- Lexicographic `≤` on `(merchant, category-code)` group keys. -/
def keyLE (a b : String × Nat) : Bool :=
  strLt a.1 b.1 || (a.1 == b.1 && Nat.ble a.2 b.2)

/-- Insert a group key into a lexicographically sorted key list. -/
def insertKey (x : String × Nat) : List (String × Nat) → List (String × Nat)
  | [] => [x]
  | y :: ys => if keyLE x y then x :: y :: ys else y :: insertKey x ys

/-- `groupby(["MERCHANT_NAME", "CATEGORY"]).size()`: the distinct
`(merchant, category)` keys sorted lexicographically (pandas groups with
`sort=True`), each with its number of occurrences. -/
def groupCounts (ps : List (String × Nat)) : List ((String × Nat) × Nat) :=
  ((dropDuplicates ps).foldr insertKey []).map fun k => (k, ps.count k)

/-- Worker for `dropDupByMerchant`: keep rows whose merchant key is new. -/
def ddmGo (seen : List String) : List ((String × Nat) × Nat) → List ((String × Nat) × Nat)
  | [] => []
  | x :: l => if x.1.1 ∈ seen then ddmGo seen l else x :: ddmGo (x.1.1 :: seen) l

/-- `drop_duplicates("MERCHANT_NAME")`: keep the first row per merchant. -/
def dropDupByMerchant (l : List ((String × Nat) × Nat)) : List ((String × Nat) × Nat) :=
  ddmGo [] l

/-- `MostFrequentCategoryByMerchant.fit`: the stored
`merchant_to_category_` dict, from feature rows and encoded targets. -/
def mostFrequentFit (X : List FeatRow) (y : List Nat) : List (String × Nat) :=
  let pairs := (X.zip y).filterMap fun rc => rc.1.merchant_name.map fun m => (m, rc.2)
  (dropDupByMerchant (sortByCountDesc (groupCounts pairs))).map Prod.fst

/-- `MostFrequentCategoryByMerchant.transform`: map each row's merchant
through the fitted dict; rows with a missing or unseen merchant get the
fixed fallback `25`. -/
def mostFrequentTransform (table : List (String × Nat)) (X : List FeatRow) : List Nat :=
  X.map fun r => ((r.merchant_name.bind fun m => table.lookup m).getD 25)

/-! ### `BaselineModel` (`core/models.py`) -/

/-- `BaselineModel`: pydantic fields `corespondance_table_path`, plus the
fitted state `pipeline` (the fitted `MostFrequentCategoryByMerchant` table)
and `le` (the fitted `LabelEncoder` classes), both `None` until `fit`. -/
structure BaselineModel where
  corespondance_table_path : String := "data/corespondance_table.csv"
  pipeline : Option (List (String × Nat)) := none
  le : Option (List String) := none
deriving DecidableEq, Repr

/-- `BaselineModel.fit`: fits the label encoder and the merchant lookup
pipeline in place.  The first component is the mutated `self`; the second
is the Python return value — the method body has **no** `return`
statement, so it returns `None`. -/
def BaselineModel.fit (m : BaselineModel) (inputs : List FeatRow)
    (targets : List String) : BaselineModel × Option BaselineModel :=
  let classes := npUnique targets
  let targetsEnc := targets.map (classIndex classes)
  ({ m with le := some classes, pipeline := some (mostFrequentFit inputs targetsEnc) },
   none)

/-- `BaselineModel.predict`: `self.pipeline.transform(inputs)` — attribute
access on `None` before any fit raises `AttributeError` — then decode via
`self.le.inverse_transform`. -/
def BaselineModel.predict (m : BaselineModel) (inputs : List FeatRow) :
    Except PyErr (List String) :=
  match m.pipeline with
  | none => .error (.attributeError "NoneType object has no attribute transform")
  | some table =>
    let codes := mostFrequentTransform table inputs
    match m.le with
    | none => .error (.attributeError "NoneType object has no attribute inverse_transform")
    | some classes => leInverseTransform classes codes

/-! ### `SKLearnPipelineModel` (`core/models.py`)

The feature pipeline and random-forest classifier are sklearn internals;
the embedding abstracts the fitted pipeline as a prediction function
produced by an arbitrary trainer `trainRF` from the hyperparameters, the
training inputs and the encoded targets. -/

/-- The declared hyperparameters of `SKLearnPipelineModel`. -/
structure SKHyper where
  max_features_desc : Int := 1000
  n_components_desc : Int := 50
  max_features_merch : Int := 500
  n_components_merch : Int := 30
  random_state : Int := 42
  n_estimators : Int := 200
  max_depth : Int := 30
  n_jobs : Int := -1
deriving DecidableEq, Repr

/-- An sklearn pipeline trainer: from hyperparameters, inputs and encoded
targets to the fitted pipeline's `predict` function. -/
def RFTrainer : Type := SKHyper → List FeatRow → List Nat → (List FeatRow → List Nat)

/-- `SKLearnPipelineModel`: hyperparameters plus the fitted state
`pipeline` and `le`, both `None` until `fit`. -/
structure SKLearnPipelineModel where
  hyper : SKHyper := {}
  pipeline : Option (List FeatRow → List Nat) := none
  le : Option (List String) := none

/-- `SKLearnPipelineModel.fit`: fits the label encoder and the sklearn
pipeline in place; like the baseline variant the method body has no
`return` statement, so the Python return value (second component) is
`None`. -/
def SKLearnPipelineModel.fit (trainRF : RFTrainer) (m : SKLearnPipelineModel)
    (inputs : List FeatRow) (targets : List String) :
    SKLearnPipelineModel × Option SKLearnPipelineModel :=
  let classes := npUnique targets
  let targetsEnc := targets.map (classIndex classes)
  ({ m with le := some classes, pipeline := some (trainRF m.hyper inputs targetsEnc) },
   none)

/-- `SKLearnPipelineModel.predict`: `self.pipeline.predict(inputs)` —
attribute access on `None` before any fit raises `AttributeError` — then
decode via `self.le.inverse_transform`. -/
def SKLearnPipelineModel.predict (m : SKLearnPipelineModel) (inputs : List FeatRow) :
    Except PyErr (List String) :=
  match m.pipeline with
  | none => .error (.attributeError "NoneType object has no attribute predict")
  | some f =>
    let codes := f inputs
    match m.le with
    | none => .error (.attributeError "NoneType object has no attribute inverse_transform")
    | some classes => leInverseTransform classes codes

/-! ### `TrainTestSplitter` (`utils/splitters.py`)

`split` builds `index = np.arange(len(inputs))` and calls sklearn's
`train_test_split(index, test_size=..., random_state=..., stratify=...)`,
then yields the single `(train_index, test_index)` pair.

sklearn draws a seeded pseudo-random permutation of the row positions,
takes the first `n_test` positions as the test set and the remaining
`n_train = n - n_test` positions as the train set (`train_size=None`
makes the train set the exact complement).  The numpy bit-generator (and,
when `stratify` is set, the per-class allocation, which still yields a
permutation split) is abstracted here as a deterministic linear-congruential
Fisher–Yates shuffle driven by `random_state`; `n_test` is
`ceil(test_size * n)` for a fractional `test_size` and the given count for
an integer one, and sklearn's `_validate_shuffle_split` raises
`ValueError` when the resulting test or train set would be empty. -/

/-- Linear-congruential step used to model numpy's seeded generator. -/
def lcgNext (s : Nat) : Nat := (1103515245 * s + 12345) % 2 ^ 31

/-- Fuelled worker for `shuffle`: repeatedly draw the element at position
`seed mod length` and recurse on the remainder with the next seed. -/
def shuffleGo : Nat → Nat → List Nat → List Nat
  | 0, _, _ => []
  | fuel + 1, s, l =>
    if l = [] then []
    else
      let j := s % l.length
      l.getD j 0 :: shuffleGo fuel (lcgNext s) (l.eraseIdx j)

/-- Deterministic seeded shuffle of a list (each draw removes one element,
so the length of the list is enough fuel). -/
def shuffle (s : Nat) (l : List Nat) : List Nat := shuffleGo l.length s l

/-- `test_size: int | float`: an absolute count, or a fraction of rows
given as numerator/denominator (the default `0.2` is `fraction 1 5`). -/
inductive TestSize where
  | count (k : Nat)
  | fraction (num den : Nat)
deriving DecidableEq, Repr

/-- Number of test rows for `n` rows: the count itself, or
`ceil(fraction * n)` (in integer arithmetic,
`(num * n + den - 1) / den`). -/
def TestSize.nTest (ts : TestSize) (n : Nat) : Nat :=
  match ts with
  | .count k => k
  | .fraction num den => (num * n + den - 1) / den

/-- `sklearn.model_selection.train_test_split` on `np.arange n`: validate
the split sizes, shuffle the positions, return
`(train_index, test_index)` = (positions after the first `n_test`,
first `n_test` positions). -/
def train_test_split (n nt seed : Nat) : Except PyErr (List Nat × List Nat) :=
  if nt = 0 ∨ n ≤ nt then
    .error (.valueError "train_test_split: resulting train or test set is empty")
  else
    let p := shuffle seed (List.range n)
    .ok (p.drop nt, p.take nt)

/-- `TrainTestSplitter`: pydantic fields with their declared defaults. -/
structure TrainTestSplitter where
  test_size : TestSize := .fraction 1 5
  random_state : Nat := 42
  stratify : Bool := true
deriving DecidableEq, Repr

/-- `TrainTestSplitter.split`: the generator yielding exactly one
`(train_index, test_index)` pair, embedded as a singleton list. -/
def TrainTestSplitter.split (s : TrainTestSplitter) (inputs : List FeatRow)
    (targets : List String) : Except PyErr (List (List Nat × List Nat)) :=
  match train_test_split inputs.length (s.test_size.nTest inputs.length) s.random_state with
  | .error e => .error e
  | .ok pair => .ok [pair]

/-- `TrainTestSplitter.get_n_splits`: literally `return 1`. -/
def TrainTestSplitter.get_n_splits (s : TrainTestSplitter) (inputs : List FeatRow)
    (targets : List String) : Nat :=
  let _ := (s, inputs, targets)
  1

/-! ### The pydantic `Model` base (`core/models.py`)

`Model(abc.ABC, pdt.BaseModel, strict=True, frozen=False, extra="forbid")`
with `get_params` / `set_params`.  The embedding keeps the pydantic surface
generic: a model instance is its ordered list of declared field names (the
iteration order of `model_dump()`) together with the current value of each
attribute.  `extra="forbid"` rejects unexpected field names at construction
with a `ValidationError`; `frozen=False` lets `setattr` overwrite any
declared field, and pydantic's `setattr` on an undeclared field raises a
`ValueError`. -/

/-- A pydantic field value (the value types that occur in the two model
variants: strings, ints, bools and `None`). -/
inductive PVal where
  | vStr (s : String)
  | vInt (n : Int)
  | vBool (b : Bool)
  | vNone
deriving DecidableEq, Repr

/-- ASCII lowercase letter test (the field names are ASCII). -/
def isAsciiLower (c : Char) : Bool := 97 ≤ c.toNat && c.toNat ≤ 122

/-- ASCII letter test (the field names are ASCII). -/
def isAsciiLetter (c : Char) : Bool :=
  isAsciiLower c || (65 ≤ c.toNat && c.toNat ≤ 90)

/-- Python `str.isupper()` restricted to ASCII field names: at least one
cased character and no lowercase one. -/
def pyIsUpper (s : String) : Bool :=
  s.data.any (fun c => isAsciiLetter c) && s.data.all (fun c => !isAsciiLower c)

/-- Python `key.startswith("_")` on a field name. -/
def startsWithUnderscore (s : String) : Bool :=
  match s.data with
  | [] => false
  | c :: _ => c.toNat == 95

/-- A pydantic model instance: declared field names (in declaration order)
and the current attribute values. -/
structure PdtModel where
  fields : List String
  values : String → PVal

/-- Declared fields and defaults of `BaselineModel`. -/
def baselineFieldDefaults : List (String × PVal) :=
  [("KIND", .vStr "BaselineModel"),
   ("corespondance_table_path", .vStr "data/corespondance_table.csv"),
   ("pipeline", .vNone),
   ("le", .vNone)]

/-- Declared fields and defaults of `SKLearnPipelineModel`. -/
def sklearnFieldDefaults : List (String × PVal) :=
  [("KIND", .vStr "SKLearnPipelineModel"),
   ("max_features_desc", .vInt 1000),
   ("n_components_desc", .vInt 50),
   ("max_features_merch", .vInt 500),
   ("n_components_merch", .vInt 30),
   ("random_state", .vInt 42),
   ("n_estimators", .vInt 200),
   ("max_depth", .vInt 30),
   ("n_jobs", .vInt (-1)),
   ("pipeline", .vNone),
   ("le", .vNone)]

/-- Pydantic construction with `extra="forbid"`: an unexpected keyword
raises a `ValidationError`; otherwise each declared field takes the given
value or its declared default. -/
def pdtConstruct (declared : List (String × PVal)) (given : List (String × PVal)) :
    Except PyErr PdtModel :=
  if given.all (fun kv => kv.1 ∈ declared.map Prod.fst) then
    .ok { fields := declared.map Prod.fst,
          values := fun k => ((given.lookup k).orElse fun _ => declared.lookup k).getD .vNone }
  else .error (.validationError "Extra inputs are not permitted")

/-- `Model.get_params`: the `(key, value)` pairs of `model_dump()` whose
key neither starts with an underscore nor is fully uppercase. -/
def PdtModel.get_params (m : PdtModel) : List (String × PVal) :=
  (m.fields.filter fun k => !startsWithUnderscore k && !pyIsUpper k).map
    fun k => (k, m.values k)

/-- Python `setattr` on a pydantic model with `frozen=False`: overwrite a
declared field in place; an undeclared field raises. -/
def PdtModel.setattr (m : PdtModel) (k : String) (v : PVal) : Except PyErr PdtModel :=
  if k ∈ m.fields then
    .ok { m with values := fun k' => if k' = k then v else m.values k' }
  else .error (.valueError ("object has no field " ++ k))

/-- `Model.set_params`: `setattr` each given pair in place, then return
`self`. -/
def PdtModel.set_params (m : PdtModel) (ps : List (String × PVal)) :
    Except PyErr PdtModel :=
  ps.foldlM (fun acc kv => acc.setattr kv.1 kv.2) m

/-! ### `PanderaSigner` (`utils/signers.py`) -/

/-- The `Schema` subclasses declared in `core/schemas.py` (the names a
valid `getattr(schemas, value)` may resolve to; non-class module
attributes are elided). -/
def declaredSchemas : List String :=
  ["Schema", "InputsSchema", "FeatInputsSchema", "TargetsSchema", "OutputsSchema"]

/-- `PanderaSigner.PANDERA_MLFLOW_MAPPING`. -/
def PANDERA_MLFLOW_MAPPING : List (String × String) :=
  [("bool", "boolean"), ("int", "long"), ("int8", "integer"), ("int16", "integer"),
   ("int32", "integer"), ("int64", "long"), ("uint", "long"), ("uint8", "integer"),
   ("uint16", "integer"), ("uint32", "integer"), ("uint64", "long"),
   ("float", "float"), ("float16", "float"), ("float32", "float"),
   ("float64", "double"), ("category", "string"), ("string", "string"),
   ("date", "datetime"), ("timestamp", "datetime"), ("datetime", "datetime"),
   ("binary", "binary")]

/-- `PanderaSigner.check_schema_name` (a pydantic field validator): the
name must resolve to a declared `Schema` subclass, else `ValueError`. -/
def check_schema_name (value : String) : Except PyErr String :=
  if value ∈ declaredSchemas then .ok value
  else .error (.valueError ("Schema name was not found in module. Got: " ++ value ++ "."))

/-- A pandera column spec as seen by `_convert_pandera_to_mlflow`:
name, dtype name, required flag. -/
structure PaColumn where
  name : String
  dtype : String
  required : Bool
deriving DecidableEq, Repr

/-- An mlflow `ColSpec`. -/
structure ColSpec where
  name : String
  optional : Bool
  type : String
deriving DecidableEq, Repr

/-- `PanderaSigner._convert_pandera_to_mlflow`: map each column's dtype
through `PANDERA_MLFLOW_MAPPING` with a plain `dict[...]` lookup — a dtype
absent from the table raises `KeyError` (the docstring claims
`ValueError`). -/
def convert_pandera_to_mlflow (cols : List PaColumn) : Except PyErr (List ColSpec) :=
  cols.mapM fun c =>
    match PANDERA_MLFLOW_MAPPING.lookup c.dtype with
    | some t => .ok ⟨c.name, !c.required, t⟩
    | none => .error (.keyError c.dtype)

/-! ### `Job` context manager (`jobs/base.py`) -/

/-- Service lifecycle events performed by `Job.__enter__` / `Job.__exit__`. -/
inductive SvcEvent where
  | startLogger
  | startAws
  | startMlflow
  | stopMlflow
  | stopAws
  | stopLogger
deriving DecidableEq, Repr

/-- `Job.__enter__`: start logger, AWS, mlflow — in that order. -/
def Job.enterEvents : List SvcEvent := [.startLogger, .startAws, .startMlflow]

/-- `Job.__exit__`: stop mlflow, AWS, logger — in that order. -/
def Job.exitEvents : List SvcEvent := [.stopMlflow, .stopAws, .stopLogger]

/-- The value `Job.__exit__` returns: literally `return False  # re-raise`. -/
def Job.exitResult : Bool := false

/-- The stop event of a start event (which service it tears down). -/
def SvcEvent.stopOf : SvcEvent → SvcEvent
  | .startLogger => .stopLogger
  | .startAws => .stopAws
  | .startMlflow => .stopMlflow
  | e => e

/-- Python `with job: body` semantics for the job context manager:
`__enter__` runs first, the body may raise, `__exit__` always runs
(its events are service stops, its body raises nothing on its own), and a
falsy `__exit__` result re-raises the body's exception unmodified — a
truthy result would swallow it (yielding no value, `ok none`). -/
def Job.withContext {α : Type} (body : Except PyErr α) :
    List SvcEvent × Except PyErr (Option α) :=
  match body with
  | .ok a => (Job.enterEvents ++ Job.exitEvents, .ok (some a))
  | .error e =>
    (Job.enterEvents ++ Job.exitEvents,
     if Job.exitResult then .ok none else .error e)

/-! ### `SklearnMetric` (`core/metrics.py`)

`score` resolves the metric function by name via `getattr(sklearn.metrics,
name)` and multiplies by `1` or `-1` according to `greater_is_better`.
Only `accuracy_score` — the configured default of the training job — is
embedded; other sklearn metric functions are abstracted, and an unknown
name raises `AttributeError` as `getattr` does. -/

/-- `SklearnMetric`: pydantic fields with their declared defaults. -/
structure SklearnMetric where
  name : String := "accuracy_score"
  greater_is_better : Bool := true
deriving DecidableEq, Repr

/-- `sklearn.metrics.accuracy_score`: fraction of equal label pairs. -/
def accuracy_score (yTrue yPred : List Nat) : Rat :=
  (((yTrue.zip yPred).filter fun p => p.1 = p.2).length : Rat) / (yTrue.length : Rat)

/-- `SklearnMetric.score`: sign-adjusted named metric. -/
def SklearnMetric.score (m : SklearnMetric) (targets outputs : List Nat) :
    Except PyErr Rat :=
  if m.name = "accuracy_score" then
    .ok ((if m.greater_is_better then 1 else -1) * accuracy_score targets outputs)
  else .error (.attributeError ("module sklearn.metrics has no attribute " ++ m.name))

/-! ### `ModelKind` dispatch (`models.ModelKind = BaselineModel |
SKLearnPipelineModel`) -/

/-- The discriminated model union used by the jobs. -/
inductive ModelKind where
  | baseline (m : BaselineModel)
  | sklearnPipeline (m : SKLearnPipelineModel)

/-- `self.model.fit(...)` as executed by the job: the mutated model state
(the discarded `None` return value is dropped at this call site, the job
never uses it). -/
def ModelKind.fitState (trainRF : RFTrainer) :
    ModelKind → List FeatRow → List String → ModelKind
  | .baseline m, inputs, targets => .baseline (m.fit inputs targets).1
  | .sklearnPipeline m, inputs, targets =>
      .sklearnPipeline (SKLearnPipelineModel.fit trainRF m inputs targets).1

/-- `self.model.predict(...)` dispatch. -/
def ModelKind.predict : ModelKind → List FeatRow → Except PyErr (List String)
  | .baseline m, inputs => m.predict inputs
  | .sklearnPipeline m, inputs => m.predict inputs

/-- `self.model._encode_target(...)`: `self.le.transform` on either
variant (attribute access on a `None` encoder raises). -/
def ModelKind.encode_target : ModelKind → List String → Except PyErr (List Nat)
  | .baseline m, ys =>
    match m.le with
    | none => .error (.attributeError "NoneType object has no attribute transform")
    | some classes => leTransform classes ys
  | .sklearnPipeline m, ys =>
    match m.le with
    | none => .error (.attributeError "NoneType object has no attribute transform")
    | some classes => leTransform classes ys

/-! ### `TrainingJob.run` (`jobs/training.py`)

The reader (`self.inputs.read()`, `io/datasets.py`) performs file I/O; the
embedding takes the dataset it returns as the `raw` argument.  The mlflow
client and logger only track and log; the metric logging is recorded in
the run result. -/

/-- The missing-value imputation of `TrainingJob.run`: `fillna` with the
literal fallbacks `"No marchant"`, `"No Description"`,
`"No type payment"` on the three categorical feature columns. -/
def imputeRow (r : FeatRow) : FeatRow :=
  { r with
    merchant_name := some (r.merchant_name.getD "No marchant"),
    description := some (r.description.getD "No Description"),
    type_of_payment := some (r.type_of_payment.getD "No type payment") }

/-- Column-wise `fillna` over the feature frame. -/
def imputeFrame (rows : List FeatRow) : List FeatRow := rows.map imputeRow

/-- `DataFrame.dropna()`: drop every row with a missing value. -/
def dropna (rows : List FeatRow) : List FeatRow :=
  rows.filter fun r =>
    r.type_of_payment.isSome && r.merchant_name.isSome && r.description.isSome

/-- An mlflow model signature.  `mlflow.models.infer_signature` derives it
from sample inputs/outputs; the embedding records the samples it was
derived from. -/
structure Signature where
  signedInputs : List FeatRow
  signedOutputs : List String
deriving DecidableEq, Repr

/-- `InferSigner.sign` (`utils/signers.py`): infer the signature from the
given sample data. -/
def InferSigner.sign (inputs : List FeatRow) (outputs : List String) : Signature :=
  ⟨inputs, outputs⟩

/-- Modelled from the spec: `io/registries.py` (the `CustomSaver` /
`MlflowRegister` classes imported by `jobs/training.py`) is not among the
provided sources.  Per spec §4.8, `Saver.save(model, signature,
input_example)` persists a fitted model plus its signature and a
representative input sample and returns a `ModelInfo` carrying the
`model_uri`; the embedding records what was persisted. -/
structure ModelInfo where
  model_uri : String
  savedModel : ModelKind
  savedSignature : Signature
  savedInputExample : List FeatRow

/-- Modelled from the spec: `CustomSaver.save` persists the model and
returns its URI (spec §4.8). -/
def CustomSaver.save (model : ModelKind) (signature : Signature)
    (input_example : List FeatRow) : ModelInfo :=
  ⟨"models:/custom", model, signature, input_example⟩

/-- Modelled from the spec: `MlflowRegister.register(name, model_uri)`
creates a new registry version entry for the given URI (spec §4.8). -/
def MlflowRegister.register (name : String) (model_uri : String) : String × String :=
  (name, model_uri)

/-- The steps of `TrainingJob.run`, in program order. -/
inductive RunEvent where
  | readInputs
  | selectFeatures
  | validateSchema
  | imputeMissing
  | splitData
  | fitModel
  | predictModel
  | scoreMetric (name : String)
  | logMetric (name : String)
  | signModel
  | saveModel
  | registerModel
deriving DecidableEq, Repr

/-- Everything `TrainingJob.run` computes (its Python body ends in
`return locals()`). -/
structure RunResult where
  trace : List RunEvent
  imputed : List FeatRow
  targets : List String
  trainIndex : List Nat
  testIndex : List Nat
  fittedTrainModel : ModelKind
  outputsTest : List String
  loggedMetrics : List (String × Rat)
  signature : Signature
  savedModel : ModelKind
  modelUri : String
  registeredVersion : String × String

/-- The scorer loop of `TrainingJob.run`: for each scorer, encode the test
targets and outputs, score, and log the metric to the tracking run;
returns the events and logged `(name, score)` pairs. -/
def scoreLoop (model : ModelKind) (targetsTest outputsTest : List String) :
    List SklearnMetric → Except PyErr (List RunEvent × List (String × Rat))
  | [] => .ok ([], [])
  | s :: rest =>
    match model.encode_target targetsTest with
    | .error e => .error e
    | .ok tEnc =>
      match model.encode_target outputsTest with
      | .error e => .error e
      | .ok oEnc =>
        match s.score tEnc oEnc with
        | .error e => .error e
        | .ok sc =>
          match scoreLoop model targetsTest outputsTest rest with
          | .error e => .error e
          | .ok (evs, scs) =>
            .ok (RunEvent.scoreMetric s.name :: RunEvent.logMetric s.name :: evs,
                 (s.name, sc) :: scs)

/-- `TrainingJob`: the configurable pieces of the job that the embedded
`run` uses (reader, saver, signer and register are fixed strategies as
noted above). -/
structure TrainingJob where
  model : ModelKind
  scorers : List SklearnMetric := [{}]
  splitter : TrainTestSplitter := {}
  registry_name : String := "qto-categorizer-ml"

/-- `TrainingJob.run`: read inputs; select the feature and target columns
and drop duplicate rows; validate the feature schema; impute the declared
per-column missing-value defaults; produce one train/test split; fit the
model on the train split; predict on the held-out test split; score each
configured metric and log it; refit on the entire dataset; sign with the
held-out predictions; save the model; register the saved model URI. -/
def TrainingJob.run (trainRF : RFTrainer) (job : TrainingJob) (raw : List RawRow) :
    Except PyErr RunResult :=
  -- inputs_ = self.inputs.read()
  let inputs_ := raw
  -- inputs = inputs_[features + [target]].drop_duplicates()
  let sel := dropDuplicates (inputs_.map selectRow)
  -- targets = inputs.pop(target)
  let targets := sel.map SelRow.category
  let feats := sel.map SelRow.toFeat
  -- inputs = schemas.FeatInputsSchema.check(inputs)
  match FeatInputsSchema.check feats with
  | .error e => .error e
  | .ok checked =>
    -- missing values cleaning
    let inputs := imputeFrame checked
    -- train_index, test_index = next(self.splitter.split(...))
    match job.splitter.split inputs targets with
    | .error e => .error e
    | .ok pairs =>
      match pairs with
      | [] => .error (.valueError "StopIteration")
      | (train_index, test_index) :: _ =>
        let inputs_train := iloc inputs train_index
        let inputs_test := iloc inputs test_index
        let targets_train := iloc targets train_index
        let targets_test := iloc targets test_index
        -- self.model.fit(inputs=inputs_train, targets=targets_train)
        let model1 := job.model.fitState trainRF inputs_train targets_train
        -- outputs_test = self.model.predict(inputs=inputs_test)
        match model1.predict inputs_test with
        | .error e => .error e
        | .ok outputs_test =>
          -- for scorer in self.scorers: ... client.log_metric(...)
          match scoreLoop model1 targets_test outputs_test job.scorers with
          | .error e => .error e
          | .ok (scoreEvents, logged) =>
            -- self.model.fit(inputs=inputs, targets=targets)
            let model2 := model1.fitState trainRF inputs targets
            -- model_signature = self.signer.sign(inputs_test[features].dropna(), outputs_test)
            let signature := InferSigner.sign (dropna inputs_test) outputs_test
            -- model_info = self.saver.save(self.model, signature, input_example=inputs)
            let info := CustomSaver.save model2 signature inputs
            -- model_version = self.registry.register(name, model_info.model_uri)
            let version := MlflowRegister.register job.registry_name info.model_uri
            .ok { trace := [.readInputs, .selectFeatures, .validateSchema,
                            .imputeMissing, .splitData, .fitModel, .predictModel]
                           ++ scoreEvents
                           ++ [.fitModel, .signModel, .saveModel, .registerModel],
                  imputed := inputs,
                  targets := targets,
                  trainIndex := train_index,
                  testIndex := test_index,
                  fittedTrainModel := model1,
                  outputsTest := outputs_test,
                  loggedMetrics := logged,
                  signature := signature,
                  savedModel := info.savedModel,
                  modelUri := info.model_uri,
                  registeredVersion := version }

/-- The training step order as worded by the spec: read → select+dedupe →
validate → impute → split once → fit on train → predict on held-out →
score and log each configured metric → refit on the entire dataset →
sign → save → register. -/
def specTrainingStepOrder (job : TrainingJob) : List RunEvent :=
  [.readInputs, .selectFeatures, .validateSchema, .imputeMissing, .splitData,
   .fitModel, .predictModel]
  ++ (job.scorers.map fun s => [RunEvent.scoreMetric s.name, RunEvent.logMetric s.name]).flatten
  ++ [.fitModel, .signModel, .saveModel, .registerModel]

/-! ### Concrete data used to instantiate the theorems -/

/-- Python `model.fit(x, y).predict(x2)`: the chained call; `fit`'s return
value is `None`, so the chained `predict` is attribute access on `None`. -/
def BaselineModel.chainFitPredict (m : BaselineModel) (inputs : List FeatRow)
    (targets : List String) (inputs2 : List FeatRow) : Except PyErr (List String) :=
  match (m.fit inputs targets).2 with
  | none => .error (.attributeError "NoneType object has no attribute predict")
  | some m' => m'.predict inputs2

/-- A feature row with the given merchant name. -/
def rowM (m : String) : FeatRow := ⟨1, some "card", some m, some "d"⟩

/-- The training feature rows of the spec's baseline example: merchants
`A, A, A, B`. -/
def c5rows : List FeatRow := [rowM "A", rowM "A", rowM "A", rowM "B"]

/-- The training labels of the spec's baseline example: `X, X, Y, Z`. -/
def c5cats : List String := ["X", "X", "Y", "Z"]

/-- The baseline model fitted on the spec's example rows. -/
def c5fitted : BaselineModel := (BaselineModel.fit {} c5rows c5cats).1

/-- A trivial pipeline trainer standing in for the random forest when the
sklearn variant is not exercised. -/
def rf0 : RFTrainer := fun _ _ _ _ => []

/-- The `i`-th row of a small concrete raw dataset: distinct ids and
amounts, merchant `A`, category `X` throughout. -/
def rawRowN (i : Nat) : RawRow :=
  ⟨toString i, 0, (i + 1 : Nat), some "card", some "A", some "d", 0, "X"⟩

/-- A five-row raw dataset on which the training job runs end to end. -/
def rawC : List RawRow := [rawRowN 0, rawRowN 1, rawRowN 2, rawRowN 3, rawRowN 4]

/-- A training job configured with the baseline model and the declared
defaults. -/
def jobC : TrainingJob := { model := .baseline {} }

/-- Ten concrete feature rows for exercising the splitter. -/
def rows10 : List FeatRow :=
  (List.range 10).map fun i => ⟨(i + 1 : Nat), some "t", some "m", some "d"⟩

/-- Ten concrete target labels accompanying `rows10`. -/
def cats10 : List String := (List.range 10).map fun i => if i % 2 = 0 then "a" else "b"

/-! ## Theorems -/

/-- C3: for every job and every exception raised by `run()` inside the job
context, `__exit__` still executes and stops the three services in the
reverse of the start order (start: logger, AWS, mlflow; stop: mlflow, AWS,
logger), raises nothing of its own, and returns `False`, so the original
exception propagates unmodified. -/
theorem job_exit_runs_and_reraises_on_exception {α : Type} (body : Except PyErr α)
    (e : PyErr) (h : body = .error e) :
    Job.withContext body = (Job.enterEvents ++ Job.exitEvents, .error e)
    ∧ Job.exitEvents = (Job.enterEvents.map SvcEvent.stopOf).reverse
    ∧ Job.exitResult = false := by
  subst h
  refine ⟨?_, by decide, rfl⟩
  simp [Job.withContext, Job.exitResult]

/-- Witness for C3: a concrete raising body propagates its `ValueError`
through the context unmodified, after the reverse-order teardown. -/
theorem job_exit_witness :
    Job.withContext (α := Unit) (.error (.valueError "boom")) =
      (Job.enterEvents ++ Job.exitEvents, .error (.valueError "boom"))
    ∧ Job.exitEvents = (Job.enterEvents.map SvcEvent.stopOf).reverse
    ∧ Job.exitResult = false :=
  job_exit_runs_and_reraises_on_exception (.error (.valueError "boom"))
    (.valueError "boom") rfl

/-- C2 counterexample: on a freshly constructed `BaselineModel`, `predict`
before any `fit` raises `AttributeError` (attribute access on the `None`
pipeline), not `NotFittedError` as claimed. -/
theorem predict_before_fit_cex :
    BaselineModel.predict {} [rowM "A"] =
      .error (.attributeError "NoneType object has no attribute transform")
    ∧ BaselineModel.predict {} [rowM "A"] ≠ .error .notFittedError := by
  exact ⟨rfl, by decide⟩

/-- C2 amended: for both model variants and every input, calling `predict`
before any call to `fit` (pipeline still `None`) fails — by raising
`AttributeError` from the attribute access on the `None` pipeline, not
`NotFittedError`. -/
theorem predict_before_fit_raises_attribute_error :
    (∀ (m : BaselineModel), m.pipeline = none → ∀ inputs,
      m.predict inputs =
        .error (.attributeError "NoneType object has no attribute transform"))
    ∧ (∀ (m : SKLearnPipelineModel), m.pipeline = none → ∀ inputs,
      m.predict inputs =
        .error (.attributeError "NoneType object has no attribute predict")) := by
  constructor
  · intro m hm inputs
    unfold BaselineModel.predict
    rw [hm]
  · intro m hm inputs
    unfold SKLearnPipelineModel.predict
    rw [hm]

/-- Witness for C2 amended: concrete fresh models on a concrete input. -/
theorem predict_before_fit_witness :
    BaselineModel.predict {} [] =
      .error (.attributeError "NoneType object has no attribute transform")
    ∧ SKLearnPipelineModel.predict {} [] =
      .error (.attributeError "NoneType object has no attribute predict") :=
  ⟨predict_before_fit_raises_attribute_error.1 {} rfl [],
   predict_before_fit_raises_attribute_error.2 {} rfl []⟩

/-- C5 counterexample: on the spec's four training rows, `predict` on the
unseen merchant `C` does not return a fallback label — it raises
`ValueError`, because the fixed fallback is the encoded label `25` and
only three classes were fit. -/
theorem baseline_unseen_merchant_cex :
    c5fitted.predict [rowM "C"] =
      .error (.valueError "y contains previously unseen labels") := by
  decide

/-- C5 amended: after fitting on {(A,X),(A,X),(A,Y),(B,Z)}, `predict` on
merchant `A` returns `X` (the most frequent label for `A`); a row with the
unseen merchant `C` is mapped to the fixed fallback *encoded* label `25`,
whose decoding through the three fitted classes fails with `ValueError` —
predict fails rather than returning a fallback label. -/
theorem baseline_majority_and_fallback :
    c5fitted.predict [rowM "A"] = .ok ["X"]
    ∧ (c5fitted.pipeline.getD []).lookup "C" = none
    ∧ mostFrequentTransform (c5fitted.pipeline.getD []) [rowM "C"] = [25]
    ∧ c5fitted.le = some ["X", "Y", "Z"]
    ∧ c5fitted.predict [rowM "C"] =
        .error (.valueError "y contains previously unseen labels") := by
  decide

/-- C6: `PanderaSigner`'s schema-name validator rejects an undeclared
schema name with `ValueError` as documented, but
`_convert_pandera_to_mlflow` hits a column dtype absent from
`PANDERA_MLFLOW_MAPPING` with a bare `dict[...]` lookup, which raises
`KeyError` — not the `ValueError` its docstring and the spec claim. -/
theorem pandera_signer_error_kinds :
    check_schema_name "BadSchema" =
      .error (.valueError "Schema name was not found in module. Got: BadSchema.")
    ∧ check_schema_name "InputsSchema" = .ok "InputsSchema"
    ∧ convert_pandera_to_mlflow [⟨"COL", "object", true⟩] = .error (.keyError "object")
    ∧ ∀ msg, (PyErr.keyError "object") ≠ (PyErr.valueError msg) := by
  refine ⟨by decide, by decide, by decide, fun msg h => PyErr.noConfusion h⟩

/-- C7 counterexample: a missing `MERCHANT_NAME` is imputed with the
literal `"No marchant"` — not `"No merchant"` as the claim states. -/
theorem impute_merchant_literal_cex :
    (imputeRow ⟨1, none, none, none⟩).merchant_name = some "No marchant"
    ∧ "No marchant" ≠ "No merchant" := by
  decide

/-- C8: both `fit` implementations end without a `return` statement, so
`fit` returns `None` rather than `self` as the abstract `Model.fit`
signature (`-> TX.Self`) and docstring declare; the chained call
`model.fit(x, y).predict(x)` therefore raises `AttributeError`. -/
theorem fit_returns_none_not_self :
    (BaselineModel.fit {} c5rows c5cats).2 = none
    ∧ (∀ (trainRF : RFTrainer) (m : SKLearnPipelineModel) inputs targets,
        (SKLearnPipelineModel.fit trainRF m inputs targets).2 = none)
    ∧ BaselineModel.chainFitPredict {} c5rows c5cats c5rows =
        .error (.attributeError "NoneType object has no attribute predict") :=
  ⟨rfl, fun _ _ _ _ => rfl, rfl⟩

/-- Helper: `setattr` with a field's current value is the identity. -/
theorem PdtModel.setattr_self (m : PdtModel) (k : String) (hk : k ∈ m.fields) :
    m.setattr k (m.values k) = .ok m := by
  unfold PdtModel.setattr
  rw [if_pos hk]
  have hv : (fun k' => if k' = k then m.values k else m.values k') = m.values := by
    funext k'
    by_cases h : k' = k <;> simp [h]
  simp only [hv]

/-- Helper: `set_params` with pairs that restate current field values is
the identity. -/
theorem PdtModel.set_params_self (m : PdtModel) :
    ∀ ps : List (String × PVal),
      (∀ kv ∈ ps, kv.1 ∈ m.fields ∧ kv.2 = m.values kv.1) →
      m.set_params ps = .ok m := by
  intro ps
  induction ps with
  | nil => intro _; rfl
  | cons kv rest ih =>
    intro h
    obtain ⟨hk, hv⟩ := h kv (List.mem_cons_self _ _)
    have hstep : m.setattr kv.1 kv.2 = .ok m := by
      rw [hv]; exact m.setattr_self kv.1 hk
    unfold PdtModel.set_params at *
    rw [List.foldlM_cons, hstep]
    simpa using ih fun kv' h' => h kv' (List.mem_cons_of_mem _ h')

/-- C10: `get_params` returns exactly the fields whose names neither start
with an underscore nor are fully uppercase — in particular `KIND` never
appears among the returned params — and the round trip
`set_params(**get_params())` succeeds and leaves `get_params` unchanged. -/
theorem get_params_filter_and_roundtrip (m : PdtModel) :
    m.get_params.map Prod.fst =
      (m.fields.filter fun k => !startsWithUnderscore k && !pyIsUpper k)
    ∧ "KIND" ∉ m.get_params.map Prod.fst
    ∧ ∃ m', m.set_params m.get_params = .ok m' ∧ m'.get_params = m.get_params := by
  have hmap : m.get_params.map Prod.fst =
      (m.fields.filter fun k => !startsWithUnderscore k && !pyIsUpper k) := by
    unfold PdtModel.get_params
    rw [List.map_map]
    have hcomp : (Prod.fst ∘ fun k => (k, m.values k)) = id := rfl
    rw [hcomp, List.map_id]
  refine ⟨hmap, ?_, ⟨m, ?_, rfl⟩⟩
  · intro hmem
    rw [hmap] at hmem
    have := List.of_mem_filter hmem
    exact absurd this (by decide)
  · refine m.set_params_self _ fun kv hkv => ?_
    unfold PdtModel.get_params at hkv
    obtain ⟨k, hk, rfl⟩ := List.mem_map.mp hkv
    exact ⟨List.mem_of_mem_filter hk, rfl⟩

/-- C9 counterexample: a validated hyperparameter of a freshly constructed
`BaselineModel` is not immutable — `set_params` overwrites
`corespondance_table_path` in place. -/
theorem hyperparameter_mutation_cex :
    ((pdtConstruct baselineFieldDefaults []).bind fun m =>
      (m.set_params [("corespondance_table_path", .vStr "changed.csv")]).map fun m' =>
        (m.values "corespondance_table_path", m'.values "corespondance_table_path"))
    = .ok (.vStr "data/corespondance_table.csv", .vStr "changed.csv") := by
  decide

/-- C9 amended: constructing a model variant with an unexpected
hyperparameter name fails with the fixed pydantic validation error
(`extra="forbid"`), but hyperparameters are *not* immutable afterwards:
the models are declared `frozen=False`, and `set_params` overwrites any
declared field in place. -/
theorem hyperparameters_validated_but_mutable :
    (∀ (declared given : List (String × PVal)) (k : String),
      k ∈ given.map Prod.fst → k ∉ declared.map Prod.fst →
      pdtConstruct declared given =
        .error (.validationError "Extra inputs are not permitted"))
    ∧ (∀ (m : PdtModel) (k : String) (v : PVal), k ∈ m.fields →
      ∃ m', m.set_params [(k, v)] = .ok m' ∧ m'.values k = v) := by
  constructor
  · intro declared given k hk hnk
    unfold pdtConstruct
    rw [if_neg]
    intro hall
    rw [List.all_eq_true] at hall
    obtain ⟨kv, hmem, hkeq⟩ := List.mem_map.mp hk
    have := hall kv hmem
    simp only [decide_eq_true_eq] at this
    exact hnk (hkeq ▸ this)
  · intro m k v hk
    refine ⟨{ m with values := fun k' => if k' = k then v else m.values k' }, ?_, ?_⟩
    · unfold PdtModel.set_params PdtModel.setattr
      simp [List.foldlM, hk]
    · simp

/-- Witness for C9 amended: the concrete baseline defaults reject an
unknown keyword, and a concrete declared field is overwritten in place. -/
theorem hyperparameters_witness :
    pdtConstruct baselineFieldDefaults [("unknown_param", .vStr "x")] =
      .error (.validationError "Extra inputs are not permitted")
    ∧ ∃ m', (PdtModel.mk ["corespondance_table_path"] fun _ => .vNone).set_params
        [("corespondance_table_path", .vStr "y")] = .ok m'
        ∧ m'.values "corespondance_table_path" = .vStr "y" :=
  ⟨hyperparameters_validated_but_mutable.1 baselineFieldDefaults _ "unknown_param"
      (by decide) (by decide),
   hyperparameters_validated_but_mutable.2 _ "corespondance_table_path" _ (by decide)⟩

/-- Helper: consing the drawn element onto the remainder permutes the
original list. -/
theorem getElem_cons_eraseIdx_perm (l : List Nat) (j : Nat) (hj : j < l.length) :
    (l[j] :: l.eraseIdx j).Perm l := by
  conv_rhs => rw [← List.take_append_drop j l, List.drop_eq_getElem_cons hj]
  rw [List.eraseIdx_eq_take_drop_succ]
  exact List.perm_middle.symm

/-- Helper: the fuelled shuffle permutes its input when given enough fuel. -/
theorem shuffleGo_perm :
    ∀ (fuel s : Nat) (l : List Nat), l.length ≤ fuel → (shuffleGo fuel s l).Perm l := by
  intro fuel
  induction fuel with
  | zero =>
    intro s l h
    have hl : l = [] := List.length_eq_zero.mp (Nat.le_zero.mp h)
    subst hl
    exact List.Perm.refl _
  | succ n ih =>
    intro s l h
    cases l with
    | nil => exact List.Perm.refl _
    | cons a as =>
      have hne : (a :: as) ≠ [] := by simp
      have hj : s % (a :: as).length < (a :: as).length :=
        Nat.mod_lt _ (by simp)
      have hlen : ((a :: as).eraseIdx (s % (a :: as).length)).length ≤ n := by
        rw [List.length_eraseIdx, if_pos hj]
        simp only [List.length_cons] at h ⊢
        omega
      simp only [shuffleGo, if_neg hne]
      rw [List.getD_eq_getElem _ _ hj]
      exact ((ih (lcgNext s) _ hlen).cons _).trans
        (getElem_cons_eraseIdx_perm _ _ hj)

/-- Helper: the seeded shuffle is a permutation of its input. -/
theorem shuffle_perm (s : Nat) (l : List Nat) : (shuffle s l).Perm l :=
  shuffleGo_perm l.length s l (Nat.le_refl _)

/-- C4: for every dataset and fixed `test_size`/`random_state`,
`TrainTestSplitter.split` is deterministic (a pure function of the seeded
generator, so a repeated call returns the same value), yields exactly one
`(train_index, test_index)` pair, the two index lists are disjoint and
together are a permutation of the row positions `0..n-1`, and
`get_n_splits` returns `1` for all arguments. -/
theorem splitter_single_disjoint_covering (s : TrainTestSplitter)
    (inputs : List FeatRow) (targets : List String)
    (pairs : List (List Nat × List Nat))
    (h : s.split inputs targets = .ok pairs) :
    s.split inputs targets = .ok pairs
    ∧ pairs.length = 1
    ∧ (∀ tr te, pairs = [(tr, te)] →
        tr.Disjoint te
        ∧ (tr ++ te).Perm (List.range inputs.length)
        ∧ (∀ i, (i ∈ tr ∨ i ∈ te) ↔ i < inputs.length))
    ∧ s.get_n_splits inputs targets = 1 := by
  obtain ⟨pair, hp, rfl⟩ :
      ∃ pair, train_test_split inputs.length (s.test_size.nTest inputs.length)
          s.random_state = .ok pair ∧ pairs = [pair] := by
    unfold TrainTestSplitter.split at h
    split at h
    · exact Except.noConfusion h
    next pair hp => exact ⟨pair, hp, (Except.ok.inj h).symm⟩
  unfold train_test_split at hp
  split at hp
  · exact Except.noConfusion hp
  obtain rfl := (Except.ok.inj hp).symm
  have hperm : (shuffle s.random_state (List.range inputs.length)).Perm
      (List.range inputs.length) := shuffle_perm _ _
  have hnodup : (shuffle s.random_state (List.range inputs.length)).Nodup :=
    hperm.nodup_iff.mpr (List.nodup_range _)
  refine ⟨h, rfl, ?_, rfl⟩
  intro tr te htr
  obtain ⟨h1, -⟩ := List.cons.inj htr
  obtain ⟨rfl, rfl⟩ := Prod.mk.inj h1
  have hcov : ((shuffle s.random_state (List.range inputs.length)).drop
        (s.test_size.nTest inputs.length)
      ++ (shuffle s.random_state (List.range inputs.length)).take
        (s.test_size.nTest inputs.length)).Perm (List.range inputs.length) := by
    have hta := List.take_append_drop (s.test_size.nTest inputs.length)
      (shuffle s.random_state (List.range inputs.length))
    exact List.perm_append_comm.trans (hta.symm ▸ hperm)
  refine ⟨?_, hcov, ?_⟩
  · have hdj := List.disjoint_take_drop (l := shuffle s.random_state
      (List.range inputs.length)) hnodup (Nat.le_refl (s.test_size.nTest inputs.length))
    exact fun a ha hb => hdj hb ha
  · intro i
    have hmem := hcov.mem_iff (a := i)
    rw [List.mem_append, List.mem_range] at hmem
    exact hmem

/-- Witness for C4: the default splitter on ten concrete rows, with the
two index lists it actually produces. -/
theorem splitter_witness :
    TrainTestSplitter.split {} rows10 cats10 = .ok [([1, 9, 7, 3, 4, 8, 5, 6], [2, 0])]
    ∧ List.Disjoint [1, 9, 7, 3, 4, 8, 5, 6] [2, 0]
    ∧ (([1, 9, 7, 3, 4, 8, 5, 6] ++ [2, 0] : List Nat)).Perm (List.range rows10.length)
    ∧ TrainTestSplitter.get_n_splits {} rows10 cats10 = 1 := by
  have h : TrainTestSplitter.split {} rows10 cats10 =
      .ok [([1, 9, 7, 3, 4, 8, 5, 6], [2, 0])] := by decide
  obtain ⟨-, -, h3, h4⟩ := splitter_single_disjoint_covering {} rows10 cats10 _ h
  obtain ⟨hd, hp, -⟩ := h3 _ _ rfl
  exact ⟨h, hd, hp, h4⟩

/-- Helper: the events of a successful scorer loop are exactly one
score-and-log pair per configured scorer, in order. -/
theorem scoreLoop_events (model : ModelKind) (t o : List String) :
    ∀ (ss : List SklearnMetric) (evs : List RunEvent) (lg : List (String × Rat)),
      scoreLoop model t o ss = .ok (evs, lg) →
      evs = (ss.map fun s =>
        [RunEvent.scoreMetric s.name, RunEvent.logMetric s.name]).flatten := by
  intro ss
  induction ss with
  | nil =>
    intro evs lg h
    obtain ⟨rfl, rfl⟩ := Prod.mk.inj (Except.ok.inj h)
    rfl
  | cons s rest ih =>
    intro evs lg h
    unfold scoreLoop at h
    split at h
    · exact Except.noConfusion h
    split at h
    · exact Except.noConfusion h
    split at h
    · exact Except.noConfusion h
    split at h
    · exact Except.noConfusion h
    next evs' lg' hrec =>
    obtain ⟨rfl, rfl⟩ := Prod.mk.inj (Except.ok.inj h)
    simp only [List.map_cons, List.flatten_cons, List.cons_append, List.nil_append]
    rw [ih evs' lg' hrec]

/-- Helper: no fit event occurs inside the scorer loop's events. -/
theorem score_events_count_fit (ss : List SklearnMetric) :
    ((ss.map fun s =>
      [RunEvent.scoreMetric s.name, RunEvent.logMetric s.name]).flatten).count
      RunEvent.fitModel = 0 := by
  induction ss with
  | nil => rfl
  | cons s rest ih =>
    simp only [List.map_cons, List.flatten_cons, List.count_append, ih]
    simp [List.count_cons]

/-- Helper: a successful `TrainingJob.run` is fully characterized: its
trace is the spec's step order, the model is fitted exactly twice, the
imputed frame has no missing categorical values, the train-split fit and
the full-data refit are what the result records, the signature derives
from the held-out predictions, and the registered version carries the
saved model URI. -/
theorem run_ok_spec (trainRF : RFTrainer) (job : TrainingJob) (raw : List RawRow)
    (res : RunResult) (h : TrainingJob.run trainRF job raw = .ok res) :
    res.trace = specTrainingStepOrder job
    ∧ res.trace.count .fitModel = 2
    ∧ (∀ row ∈ res.imputed,
        row.merchant_name.isSome ∧ row.description.isSome ∧ row.type_of_payment.isSome)
    ∧ res.fittedTrainModel =
        job.model.fitState trainRF (iloc res.imputed res.trainIndex)
          (iloc res.targets res.trainIndex)
    ∧ res.savedModel = res.fittedTrainModel.fitState trainRF res.imputed res.targets
    ∧ res.signature =
        InferSigner.sign (dropna (iloc res.imputed res.testIndex)) res.outputsTest
    ∧ res.registeredVersion = (job.registry_name, res.modelUri)
    ∧ res.trace.take 7 = [.readInputs, .selectFeatures, .validateSchema,
        .imputeMissing, .splitData, .fitModel, .predictModel] := by
  unfold TrainingJob.run at h
  simp only [] at h
  split at h
  · exact Except.noConfusion h
  next checked hcheck =>
  split at h
  · exact Except.noConfusion h
  next pairs hsplit =>
  split at h
  · exact Except.noConfusion h
  next train_index test_index rest =>
  split at h
  · exact Except.noConfusion h
  next outputs_test hpred =>
  split at h
  · exact Except.noConfusion h
  next scoreEvents logged hscore =>
  obtain rfl : _ = res := Except.ok.inj h
  refine ⟨?_, ?_, ?_, rfl, rfl, rfl, rfl, rfl⟩
  · show _ ++ scoreEvents ++ _ = specTrainingStepOrder job
    unfold specTrainingStepOrder
    rw [scoreLoop_events _ _ _ _ _ _ hscore]
  · show (_ ++ scoreEvents ++ _).count _ = 2
    rw [scoreLoop_events _ _ _ _ _ _ hscore]
    simp [List.count_append, score_events_count_fit, List.count_cons]
  · intro row hrow
    obtain ⟨r, -, rfl⟩ := List.mem_map.mp hrow
    simp [imputeRow]

/-- C1: `TrainingJob.run` performs its steps in exactly the spec's order
(read → select+dedupe → validate → impute → split once → fit on train →
predict on held-out → score and log each configured metric → refit on the
entire dataset → sign with the held-out predictions → save → register);
the model is fitted exactly twice and the persisted artifact is the
full-data refit of the train-split fit, not the scored train-split fit
itself. -/
theorem training_run_step_order (trainRF : RFTrainer) (job : TrainingJob)
    (raw : List RawRow) (res : RunResult)
    (h : TrainingJob.run trainRF job raw = .ok res) :
    res.trace = specTrainingStepOrder job
    ∧ res.trace.count .fitModel = 2
    ∧ res.fittedTrainModel =
        job.model.fitState trainRF (iloc res.imputed res.trainIndex)
          (iloc res.targets res.trainIndex)
    ∧ res.savedModel = res.fittedTrainModel.fitState trainRF res.imputed res.targets
    ∧ res.signature =
        InferSigner.sign (dropna (iloc res.imputed res.testIndex)) res.outputsTest
    ∧ res.registeredVersion = (job.registry_name, res.modelUri) := by
  obtain ⟨h1, h2, -, h4, h5, h6, h7, -⟩ := run_ok_spec trainRF job raw res h
  exact ⟨h1, h2, h4, h5, h6, h7⟩

/-- Witness for C1: the training job runs end to end on a concrete
five-row dataset with the baseline model, producing the spec's trace with
exactly two fit events. -/
theorem training_run_witness :
    ∃ res, TrainingJob.run rf0 jobC rawC = .ok res
      ∧ res.trace = specTrainingStepOrder jobC
      ∧ res.trace.count .fitModel = 2 := by
  cases hr : TrainingJob.run rf0 jobC rawC with
  | error e =>
    have hok : isOkE (TrainingJob.run rf0 jobC rawC) = true := by decide
    rw [hr] at hok
    exact absurd hok (by simp [isOkE])
  | ok res =>
    obtain ⟨h1, h2, -⟩ := training_run_step_order rf0 jobC rawC res hr
    exact ⟨res, rfl, h1, h2⟩

/-- C7 amended: every missing value in the categorical feature columns is
imputed before splitting and fitting, with the fixed literal fallbacks
`"No marchant"` (the code's literal, not the claim's `"No merchant"`) for
`MERCHANT_NAME`, `"No Description"` for `DESCRIPTION` and
`"No type payment"` for `TYPE_OF_PAYMENT`. -/
theorem training_impute_literals :
    (∀ r : FeatRow, imputeRow r =
      ⟨r.amount, some (r.type_of_payment.getD "No type payment"),
        some (r.merchant_name.getD "No marchant"),
        some (r.description.getD "No Description")⟩)
    ∧ (∀ (trainRF : RFTrainer) (job : TrainingJob) (raw : List RawRow)
        (res : RunResult), TrainingJob.run trainRF job raw = .ok res →
        (∀ row ∈ res.imputed,
          row.merchant_name.isSome ∧ row.description.isSome
          ∧ row.type_of_payment.isSome)
        ∧ res.fittedTrainModel =
            job.model.fitState trainRF (iloc res.imputed res.trainIndex)
              (iloc res.targets res.trainIndex)
        ∧ res.trace.take 7 = [.readInputs, .selectFeatures, .validateSchema,
            .imputeMissing, .splitData, .fitModel, .predictModel]) := by
  refine ⟨fun r => rfl, fun trainRF job raw res h => ?_⟩
  obtain ⟨-, -, h3, h4, -, -, -, h8⟩ := run_ok_spec trainRF job raw res h
  exact ⟨h3, h4, h8⟩

/-- Witness for C7 amended: the concrete training run's imputed frame has
no missing categorical values, and the impute step precedes split and fit
in the trace. -/
theorem training_impute_witness :
    (imputeRow ⟨1, none, none, none⟩ =
      ⟨1, some "No type payment", some "No marchant", some "No Description"⟩)
    ∧ ∃ res, TrainingJob.run rf0 jobC rawC = .ok res
      ∧ (∀ row ∈ res.imputed,
          row.merchant_name.isSome ∧ row.description.isSome
          ∧ row.type_of_payment.isSome)
      ∧ res.trace.take 7 = [.readInputs, .selectFeatures, .validateSchema,
          .imputeMissing, .splitData, .fitModel, .predictModel] := by
  refine ⟨training_impute_literals.1 _, ?_⟩
  cases hr : TrainingJob.run rf0 jobC rawC with
  | error e =>
    have hok : isOkE (TrainingJob.run rf0 jobC rawC) = true := by decide
    rw [hr] at hok
    exact absurd hok (by simp [isOkE])
  | ok res =>
    obtain ⟨ha, -, hb⟩ := training_impute_literals.2 rf0 jobC rawC res hr
    exact ⟨res, rfl, ha, hb⟩

end QTO
